import Mathlib

/-
Shallow embedding of the pyadt library (src/pyadt/maybe.py and
src/pyadt/result.py): an optional-value container Maybe with variants
Something and Nothing, and an outcome container Result with variants
Success and Error, together with their combinators, the exception
behaviour of the unwrap accessors, and the free adapter functions
maybe, wrap_maybe and unwrap_maybe.

Python values that matter only for dynamic checks (isinstance against
Exception in Error.unwrap) are modelled by a small universe PyVal; a
raised Python exception is modelled by the structure Raised carrying a
class name, a message and the cause chain installed by raise-from.
Methods taking an optional argument (msg, fallback) receive it as an
explicit Option. Fallible methods return Except Raised instead of
raising.
-/

/-- A small universe of Python runtime values. The constructor pyexc
models an exception instance of a given class holding one argument,
which is what isinstance against Exception dispatches on in
Error.unwrap (src/pyadt/result.py lines 131 to 137). -/
inductive PyVal : Type where
  | pynone : PyVal
  | pyint (n : Int) : PyVal
  | pystr (s : String) : PyVal
  | pyexc (cls : String) (arg : PyVal) : PyVal
deriving DecidableEq, Repr

/-- isinstance of the value against Exception: true exactly for
exception instances. -/
def PyVal.isException : PyVal → Bool
  | .pyexc _ _ => true
  | _ => false

/-- A raised Python exception: its class, its message argument, and its
cause as installed by a raise-from (absent when raised bare). -/
structure Raised : Type where
  cls : String
  msg : String
  cause : Option PyVal
deriving DecidableEq, Repr

/-- Python truthiness-based fallback on an optional string, translating
the expression given by msg or default: None and the empty string are
falsy, so both select the default. -/
def pyStrOr : Option String → String → String
  | none, d => d
  | some s, d => if s = "" then d else s

/-- Maybe (src/pyadt/maybe.py): variants Something holding one value and
Nothing holding none. -/
inductive Maybe (α : Type) : Type where
  | Something (held : α) : Maybe α
  | Nothing : Maybe α
deriving DecidableEq, Repr

/-- Result (src/pyadt/result.py): variants Success holding an outcome
and Error holding a failure payload. -/
inductive Result (α ε : Type) : Type where
  | Success (held : α) : Result α ε
  | Error (held : ε) : Result α ε
deriving DecidableEq, Repr

/-- Something.is_something / Nothing.is_something. -/
def Maybe.is_something : Maybe α → Bool
  | .Something _ => true
  | .Nothing => false

/-- Something.is_nothing / Nothing.is_nothing. -/
def Maybe.is_nothing : Maybe α → Bool
  | .Something _ => false
  | .Nothing => true

/-- Something.map returns Something(cb(self._held)); Nothing.map returns
Nothing() (maybe.py lines 182 to 183 and 232 to 233). -/
def Maybe.map (self : Maybe α) (cb : α → β) : Maybe β :=
  match self with
  | .Something v => .Something (cb v)
  | .Nothing => .Nothing

/-- get (maybe.py lines 191 to 192 and 241 to 242): Something returns
the held value, Nothing returns the fallback, whose omitted default is
None; the Python return type T or None is modelled by Option. -/
def Maybe.get (self : Maybe α) (fallback : Option α) : Option α :=
  match self with
  | .Something v => some v
  | .Nothing => fallback

/-- unwrap (maybe.py lines 194 to 195 and 244 to 247): Something returns
the held value; Nothing raises EmptyMaybeError with the supplied
message, or the default message when msg is None (an is-None check, not
truthiness). -/
def Maybe.unwrap (self : Maybe α) (msg : Option String) : Except Raised α :=
  match self with
  | .Something v => .ok v
  | .Nothing =>
      .error ⟨"EmptyMaybeError", msg.getD "Attempted to unwrap Nothing", none⟩

/-- Something.ok_or returns Success(self._held); Nothing.ok_or returns
Error(err) (maybe.py lines 209 to 211 and 261 to 263). -/
def Maybe.ok_or (self : Maybe α) (err : ε) : Result α ε :=
  match self with
  | .Something v => .Success v
  | .Nothing => .Error err

/-- Something.ok_or_else returns Success(self._held) without calling
err; Nothing.ok_or_else returns Error(err()) (maybe.py lines 213 to 215
and 265 to 267). -/
def Maybe.ok_or_else (self : Maybe α) (err : Unit → ε) : Result α ε :=
  match self with
  | .Something v => .Success v
  | .Nothing => .Error (err ())

/-- Success.is_ok / Error.is_ok. -/
def Result.is_ok : Result α ε → Bool
  | .Success _ => true
  | .Error _ => false

/-- Success.is_err / Error.is_err. -/
def Result.is_err : Result α ε → Bool
  | .Success _ => false
  | .Error _ => true

/-- Success.map returns Success(cb(self._held)); Error.map returns
Error(self._held) (result.py lines 190 to 191 and 148 to 149). -/
def Result.map (self : Result α ε) (cb : α → β) : Result β ε :=
  match self with
  | .Success v => .Success (cb v)
  | .Error e => .Error e

/-- Error.map_err returns Error(cb(self._held)); Success.map_err returns
Success(self._held) (result.py lines 151 to 152 and 193 to 194). -/
def Result.map_err (self : Result α ε) (cb : ε → φ) : Result α φ :=
  match self with
  | .Success v => .Success v
  | .Error e => .Error (cb e)

/-- unwrap (result.py lines 176 to 177 and 131 to 137): Success returns
the held value; Error raises UnwrapError whose message is the Python
expression msg or the default (truthiness: an empty msg also falls back)
and whose cause is the held payload itself when it is an Exception
instance, otherwise the payload wrapped in ErrorWrapper. -/
def Result.unwrap (self : Result α PyVal) (msg : Option String) : Except Raised α :=
  match self with
  | .Success v => .ok v
  | .Error e =>
      .error ⟨"UnwrapError", pyStrOr msg "Attempted to unwrap an Error",
        some (if e.isException then e else .pyexc "ErrorWrapper" e)⟩

/-- unwrap_err (result.py lines 145 to 146 and 185 to 188): Error
returns the held payload; Success raises UnwrapError with the supplied
message, or the default when msg is None (an is-None check). -/
def Result.unwrap_err (self : Result α ε) (msg : Option String) : Except Raised ε :=
  match self with
  | .Error e => .ok e
  | .Success _ =>
      .error ⟨"UnwrapError", msg.getD "Attempted to unwrap the error from a Success", none⟩

/-- Modelled from the spec: Result.and_then is absent from
src/pyadt/result.py (only the tests call it); section 4.2 of the spec
gives f(v) on Success(v) and unchanged on Error. -/
def Result.and_then (self : Result α ε) (cb : α → Result β ε) : Result β ε :=
  match self with
  | .Success v => cb v
  | .Error e => .Error e

/-- Modelled from the spec: Result.or_else is absent from
src/pyadt/result.py (only the tests call it); section 4.2 of the spec
gives self unchanged on Success and f(e) on Error(e). -/
def Result.or_else (self : Result α ε) (cb : ε → Result α φ) : Result α φ :=
  match self with
  | .Success v => .Success v
  | .Error e => cb e

/-- Modelled from the spec: Result.ok is absent from src/pyadt/result.py
(only the tests call it); section 4.2 of the spec gives Something(v) on
Success(v) and Nothing() on Error. -/
def Result.ok (self : Result α ε) : Maybe α :=
  match self with
  | .Success v => .Something v
  | .Error _ => .Nothing

/-- Modelled from the spec: Result.err is absent from
src/pyadt/result.py (only the tests call it); section 4.2 of the spec
gives Nothing() on Success and Something(e) on Error(e). -/
def Result.err (self : Result α ε) : Maybe ε :=
  match self with
  | .Success _ => .Nothing
  | .Error e => .Something e

/-- The helper maybe (maybe.py lines 270 to 281): None becomes Nothing,
anything else becomes Something of it. -/
def maybe : Option α → Maybe α
  | none => .Nothing
  | some v => .Something v

/-- wrap_maybe (maybe.py lines 284 to 295): the wrapped function applies
f and classifies the outcome through maybe. -/
def wrap_maybe (f : σ → Option ρ) : σ → Maybe ρ :=
  fun a => maybe (f a)

/-- unwrap_maybe (maybe.py lines 298 to 312): the wrapped function
applies f and calls get() with the omitted fallback defaulting to
None. -/
def unwrap_maybe (f : σ → Maybe ρ) : σ → Option ρ :=
  fun a => (f a).get none

/-- Claim C1: the Result-to-Maybe bridge. Success(v).ok() is
Something(v), so Success(v).ok().unwrap() returns v, and Success(v).err()
is Nothing(); Error(e).err() is Something(e), so Error(e).err().unwrap()
returns e, and Error(e).ok() is Nothing(). -/
theorem C1_result_to_maybe_bridge (v : α) (e : ε) :
    (Result.Success v : Result α ε).ok = Maybe.Something v ∧
    ((Result.Success v : Result α ε).ok).unwrap none = Except.ok v ∧
    (Result.Success v : Result α ε).err = (Maybe.Nothing : Maybe ε) ∧
    (Result.Error e : Result α ε).err = Maybe.Something e ∧
    ((Result.Error e : Result α ε).err).unwrap none = Except.ok e ∧
    (Result.Error e : Result α ε).ok = (Maybe.Nothing : Maybe α) :=
  ⟨rfl, rfl, rfl, rfl, rfl, rfl⟩

/-- Claim C2: Result chaining short-circuits. For every callback,
Error(e).and_then(f) equals Error(e) without invoking f (the outcome is
the same for every f), Success(v).and_then(f) equals f(v),
Success(v).or_else(g) equals Success(v) without invoking g, and
Error(e).or_else(g) equals g(e). -/
theorem C2_result_chaining (v : α) (e : ε) (f : α → Result β ε) (g : ε → Result α φ) :
    (Result.Error e : Result α ε).and_then f = Result.Error e ∧
    (Result.Success v : Result α ε).and_then f = f v ∧
    (Result.Success v : Result α ε).or_else g = Result.Success v ∧
    (Result.Error e : Result α ε).or_else g = g e :=
  ⟨rfl, rfl, rfl, rfl⟩

/-- Claim C3, counterexample: the claim says Nothing().get() with no
fallback fails with an EmptyValue-class error rather than returning an
absent marker, but the code (maybe.py lines 241 to 242) returns the
fallback unconditionally, so the call returns None, the absent
marker. -/
theorem C3_get_counterexample : (Maybe.Nothing : Maybe PyVal).get none = none :=
  rfl

/-- Claim C3 as amended: Something(v).get(fallback) returns v for any
fallback; Nothing().get(fallback) returns the fallback when one is
given, and returns the absent marker None, without failing, when no
fallback is given. -/
theorem C3_get_semantics (v fb : α) (ofb : Option α) :
    (Maybe.Something v).get ofb = some v ∧
    (Maybe.Nothing : Maybe α).get (some fb) = some fb ∧
    (Maybe.Nothing : Maybe α).get none = none :=
  ⟨rfl, rfl, rfl⟩

/-- Claim C4, counterexample: the claim says Error(e).unwrap(msg) raises
UnwrapError with the supplied msg, but for the supplied empty string the
code (result.py line 137) evaluates msg or the default under Python
truthiness, so the message is the default, not the supplied empty
string. -/
theorem C4_unwrap_counterexample :
    (Result.Error (PyVal.pystr "x") : Result PyVal PyVal).unwrap (some "") ≠
      Except.error ⟨"UnwrapError", "", some (PyVal.pyexc "ErrorWrapper" (PyVal.pystr "x"))⟩ := by
  simp [Result.unwrap, pyStrOr]

/-- Claim C4 as amended: Error(e).unwrap(msg) raises UnwrapError whose
message is the supplied msg when it is non-empty and the default
Attempted to unwrap an Error when msg is omitted or empty (Python
truthiness), and whose cause is e itself when e is an Exception and
otherwise e wrapped in an ErrorWrapper; Success(v).unwrap_err(msg)
raises UnwrapError whose message is the default Attempted to unwrap the
error from a Success when msg is omitted and exactly the supplied msg
otherwise. -/
theorem C4_unwrap_mismatch (e v : PyVal) (msg m : String) (hmsg : msg ≠ "") :
    (Result.Error e : Result PyVal PyVal).unwrap none =
      Except.error ⟨"UnwrapError", "Attempted to unwrap an Error",
        some (if e.isException then e else PyVal.pyexc "ErrorWrapper" e)⟩ ∧
    (Result.Error e : Result PyVal PyVal).unwrap (some msg) =
      Except.error ⟨"UnwrapError", msg,
        some (if e.isException then e else PyVal.pyexc "ErrorWrapper" e)⟩ ∧
    (Result.Error e : Result PyVal PyVal).unwrap (some "") =
      Except.error ⟨"UnwrapError", "Attempted to unwrap an Error",
        some (if e.isException then e else PyVal.pyexc "ErrorWrapper" e)⟩ ∧
    (Result.Success v : Result PyVal PyVal).unwrap_err none =
      Except.error ⟨"UnwrapError", "Attempted to unwrap the error from a Success", none⟩ ∧
    (Result.Success v : Result PyVal PyVal).unwrap_err (some m) =
      Except.error ⟨"UnwrapError", m, none⟩ := by
  refine ⟨rfl, ?_, rfl, rfl, rfl⟩
  simp [Result.unwrap, pyStrOr, hmsg]

/-- Witness for the amended claim C4 at concrete inputs: a non-exception
payload gets wrapped in ErrorWrapper as the cause and a non-empty
supplied message is kept. -/
theorem C4_unwrap_mismatch_witness :
    (Result.Error (PyVal.pystr "x") : Result PyVal PyVal).unwrap (some "boom") =
      Except.error ⟨"UnwrapError", "boom",
        some (PyVal.pyexc "ErrorWrapper" (PyVal.pystr "x"))⟩ :=
  (C4_unwrap_mismatch (PyVal.pystr "x") (PyVal.pyint 1) "boom" "m" (by decide)).2.1

/-- Claim C5: Something(v).unwrap(msg) returns v for any msg, and
Nothing().unwrap() raises EmptyMaybeError whose message is exactly
Attempted to unwrap Nothing when no message is given and exactly the
supplied message otherwise. -/
theorem C5_maybe_unwrap (v : α) (msg : Option String) (m : String) :
    (Maybe.Something v).unwrap msg = Except.ok v ∧
    (Maybe.Nothing : Maybe α).unwrap none =
      Except.error ⟨"EmptyMaybeError", "Attempted to unwrap Nothing", none⟩ ∧
    (Maybe.Nothing : Maybe α).unwrap (some m) =
      Except.error ⟨"EmptyMaybeError", m, none⟩ :=
  ⟨rfl, rfl, rfl⟩

/-- Claim C6: the Maybe-to-Result bridge. Something(v).ok_or(err) is
Success(v) and Nothing().ok_or(err) is Error(err); likewise
Something(v).ok_or_else(err_fn) is Success(v) without invoking err_fn
(the outcome is the same for every err_fn), and
Nothing().ok_or_else(err_fn) is Error(err_fn()). -/
theorem C6_maybe_to_result_bridge (v : α) (e : ε) (ef : Unit → ε) :
    (Maybe.Something v).ok_or e = Result.Success v ∧
    (Maybe.Nothing : Maybe α).ok_or e = Result.Error e ∧
    (Maybe.Something v).ok_or_else ef = Result.Success v ∧
    (Maybe.Nothing : Maybe α).ok_or_else ef = Result.Error (ef ()) :=
  ⟨rfl, rfl, rfl, rfl⟩

/-- Claim C7: Something(v).map(f) is Something(f(v)); Nothing().map(f)
is Nothing() with f never invoked, so the result on Nothing is identical
for any two callbacks. -/
theorem C7_maybe_map (v : α) (f g : α → β) :
    (Maybe.Something v).map f = Maybe.Something (f v) ∧
    (Maybe.Nothing : Maybe α).map f = (Maybe.Nothing : Maybe β) ∧
    (Maybe.Nothing : Maybe α).map f = (Maybe.Nothing : Maybe α).map g :=
  ⟨rfl, rfl, rfl⟩

/-- Claim C8: mapping with the identity callback is a no-op up to
structural equality, on both variants of Maybe via map and on both
variants of Result via map and map_err. -/
theorem C8_identity_map (m : Maybe α) (r : Result α ε) :
    m.map (fun x => x) = m ∧
    r.map (fun x => x) = r ∧
    r.map_err (fun x => x) = r := by
  cases m <;> cases r <;> exact ⟨rfl, rfl, rfl⟩

/-- Claim C9: composing the adapters is behaviour-preserving. For every
function f returning a value-or-None and every argument,
unwrap_maybe(wrap_maybe(f)) returns exactly what f returns, because
maybe(None).get() is None and maybe(v).get() is v for present v, so
Nothing maps back to None without raising. -/
theorem C9_adapter_roundtrip (f : σ → Option ρ) (a : σ) :
    unwrap_maybe (wrap_maybe f) a = f a ∧
    (maybe (none : Option ρ)).get none = none ∧
    (∀ v : ρ, (maybe (some v)).get none = some v) := by
  refine ⟨?_, rfl, fun v => rfl⟩
  cases hfa : f a <;> simp [unwrap_maybe, wrap_maybe, maybe, Maybe.get, hfa]
